import Mathlib

/-!
Verification of the rs-dds-server device-bridging tool
(tools/dds/dds-server/rs-dds-server.cpp).

The development shallowly embeds the bridging core: device/sensor/profile
metadata, initialization-message construction, the topic-root resolver,
the attach/detach handlers and the per-stream start/publish path.
Machine integers that the source narrows (int8_t / int16_t casts) are
modelled as Int with explicit wrap-around arithmetic; fallible calls
(C++ throw) are modelled with Option / Except; the C++ std::map registry
is modelled as an association list with lookup returning an Option.
-/

namespace RsDdsServer

/-! ## Data model -/

/-- topics::device_info — immutable identity snapshot of a device
(rs2_device_to_info, lines 261-272). -/
structure DeviceInfo where
  name : String
  serial : String
  productLine : String
  locked : Bool
  topicRoot : String
deriving DecidableEq

/-- The sensor kinds distinguished by add_init_profiles_msgs (lines 190, 209):
color / depth sensors go to the video branch, motion sensors to the motion
branch, anything else throws. -/
inductive SensorKind where
  | color
  | depth
  | motion
  | other
deriving DecidableEq

/-- An rs2::stream_profile as consumed by the tool: the fields read through
the rs2 accessors.  isVideo / isMotion model the is< video_stream_profile >
and is< motion_stream_profile > runtime checks. -/
structure RsProfile where
  streamType : Nat
  fps : Int
  format : Nat
  width : Int
  height : Int
  streamIndex : Int
  uniqueId : Int
  isDefault : Bool
  isVideo : Bool
  isMotion : Bool
  streamName : String
deriving DecidableEq

/-- An rs2::sensor: its RS2_CAMERA_INFO_NAME, its kind, and its stream
profiles in enumeration order. -/
structure RsSensor where
  name : String
  kind : SensorKind
  profiles : List RsProfile
deriving DecidableEq

/-- An rs2::device: identity info strings plus the sensor list returned by
query_sensors(). -/
structure RsDevice where
  name : String
  serial : String
  productLine : String
  lockedStr : String
  sensors : List RsSensor
deriving DecidableEq

/-! ## Topic Root Resolver (get_topic_root, lines 243-258) -/

/-- Byte/character-level take on a string (strncmp window). -/
def strTake (s : String) (n : Nat) : String := String.mk (s.data.take n)

/-- Drop the first n characters (std::string::erase(0, n)). -/
def strDrop (s : String) (n : Nat) : String := String.mk (s.data.drop n)

/-- std::string::length. -/
def strLen (s : String) : Nat := s.data.length

/-- DEVICE_NAME_PREFIX in the source (line 247). -/
def DEVICE_NAME_PFX : String := "Intel RealSense "

/-- DEVICE_NAME_PREFIX_CCH in the source (line 248). -/
def DEVICE_NAME_PFX_CCH : Nat := 16

/-- get_topic_root (lines 243-258): strip the vendor name from the model
only when the model name is strictly longer than the 16-char vendor string
and its first 16 characters match it exactly (strncmp == 0); then build
"realsense/" + model + "/" + serial. -/
def get_topic_root (name serial : String) : String :=
  let model_name :=
    if strLen name > DEVICE_NAME_PFX_CCH ∧ strTake name DEVICE_NAME_PFX_CCH = DEVICE_NAME_PFX then
      strDrop name DEVICE_NAME_PFX_CCH
    else
      name
  "realsense/" ++ model_name ++ "/" ++ serial

/-- rs2_device_to_info (lines 261-272). -/
def rs2_device_to_info (dev : RsDevice) : DeviceInfo :=
  { name := dev.name
    serial := dev.serial
    productLine := dev.productLine
    locked := dev.lockedStr = "YES"
    topicRoot := get_topic_root dev.name dev.serial }

/-! ## Claims C2 and C10: the topic-root resolver -/

/-- C2: topic-root derivation is a pure function of (model name, serial);
it strips the vendor string exactly when the name is longer than 16 chars
and starts with it, passes the name through unchanged otherwise, and maps
the two specified examples to the specified roots. -/
theorem C2_topic_root_resolver :
    get_topic_root "Intel RealSense D435" "11223344" = "realsense/D435/11223344"
    ∧ get_topic_root "Generic Cam" "99" = "realsense/Generic Cam/99"
    ∧ (∀ name serial : String,
        ¬ (strLen name > DEVICE_NAME_PFX_CCH ∧ strTake name DEVICE_NAME_PFX_CCH = DEVICE_NAME_PFX) →
        get_topic_root name serial = "realsense/" ++ name ++ "/" ++ serial)
    ∧ (∀ name serial : String,
        strLen name > DEVICE_NAME_PFX_CCH → strTake name DEVICE_NAME_PFX_CCH = DEVICE_NAME_PFX →
        get_topic_root name serial = "realsense/" ++ strDrop name DEVICE_NAME_PFX_CCH ++ "/" ++ serial) := by
  refine ⟨by decide, by decide, ?_, ?_⟩
  · intro name serial h
    simp only [get_topic_root, if_neg h]
  · intro name serial h1 h2
    simp only [get_topic_root, if_pos (And.intro h1 h2)]

/-- Witness for C2 at concrete inputs: the unmatched branch passes the name
through unchanged. -/
theorem C2_topic_root_resolver_witness :
    get_topic_root "Generic Cam" "99" = "realsense/" ++ "Generic Cam" ++ "/" ++ "99" :=
  C2_topic_root_resolver.2.2.1 "Generic Cam" "99" (by decide)

/-- C10: the vendor string is stripped only when the model name is strictly
longer than the 16-char vendor string: any name of length at most 16 —
including a name exactly equal to the vendor string — is used unmodified. -/
theorem C10_short_name_unmodified (name serial : String)
    (h : strLen name ≤ DEVICE_NAME_PFX_CCH) :
    get_topic_root name serial = "realsense/" ++ name ++ "/" ++ serial := by
  simp only [get_topic_root]
  rw [if_neg]
  intro hc
  exact absurd hc.1 (not_lt.mpr h)

/-- Witness for C10: a model name exactly equal to the 16-char vendor string
is not stripped. -/
theorem C10_short_name_unmodified_witness :
    strLen "Intel RealSense " ≤ DEVICE_NAME_PFX_CCH
    ∧ get_topic_root "Intel RealSense " "1" = "realsense/Intel RealSense /1" :=
  ⟨by decide, C10_short_name_unmodified "Intel RealSense " "1" (by decide)⟩

/-! ## Notification messages (topics::device::notification) -/

/-- Wrap-around narrowing to int8_t, as performed by the
static_cast< int8_t > in prepare_video_profiles_messeges. -/
def toInt8 (x : Int) : Int := (x + 128) % 256 - 128

/-- Wrap-around narrowing to int16_t (static_cast< int16_t >). -/
def toInt16 (x : Int) : Int := (x + 32768) % 65536 - 32768

/-- A video_stream_profile message entry (lines 132-139); the field order
follows the aggregate initializer in the source.  streamIndex is int8_t,
uniqueId / fps / width / height are int16_t. -/
structure VideoStreamProfile where
  streamIndex : Int
  uniqueId : Int
  fps : Int
  format : Nat
  streamType : Nat
  width : Int
  height : Int
  isDefault : Bool
deriving DecidableEq

/-- A motion_stream_profile message entry (lines 165-170). -/
structure MotionStreamProfile where
  streamIndex : Int
  uniqueId : Int
  fps : Int
  format : Nat
  streamType : Nat
  isDefault : Bool
deriving DecidableEq

/-- The narrowing conversion from an rs2 video profile to its message entry. -/
def videoProfileOf (p : RsProfile) : VideoStreamProfile :=
  { streamIndex := toInt8 p.streamIndex
    uniqueId := toInt16 p.uniqueId
    fps := toInt16 p.fps
    format := p.format
    streamType := p.streamType
    width := toInt16 p.width
    height := toInt16 p.height
    isDefault := p.isDefault }

/-- The narrowing conversion from an rs2 motion profile to its message entry. -/
def motionProfileOf (p : RsProfile) : MotionStreamProfile :=
  { streamIndex := toInt8 p.streamIndex
    uniqueId := toInt16 p.uniqueId
    fps := toInt16 p.fps
    format := p.format
    streamType := p.streamType
    isDefault := p.isDefault }

/-- video_stream_profiles_msg: group name, written profile slots in write
order, and the final num_of_profiles counter. -/
structure VideoStreamProfilesMsg where
  groupName : String
  profiles : List VideoStreamProfile
  numOfProfiles : Nat
deriving DecidableEq

/-- motion_stream_profiles_msg. -/
structure MotionStreamProfilesMsg where
  groupName : String
  profiles : List MotionStreamProfile
  numOfProfiles : Nat
deriving DecidableEq

/-- prepare_video_profiles_messeges (lines 119-150): copy the sensor name
into group_name, write one entry per video-capable profile in input order
(non-video profiles are logged and skipped), and set num_of_profiles to the
number of entries written. -/
def prepare_video_profiles_messeges (sensor_name : String)
    (stream_profiles : List RsProfile) : VideoStreamProfilesMsg :=
  let entries := stream_profiles.filterMap
    (fun sp => if sp.isVideo then some (videoProfileOf sp) else none)
  { groupName := sensor_name, profiles := entries, numOfProfiles := entries.length }

/-- prepare_motion_profiles_messeges (lines 152-180). -/
def prepare_motion_profiles_messeges (sensor_name : String)
    (stream_profiles : List RsProfile) : MotionStreamProfilesMsg :=
  let entries := stream_profiles.filterMap
    (fun sp => if sp.isMotion then some (motionProfileOf sp) else none)
  { groupName := sensor_name, profiles := entries, numOfProfiles := entries.length }

/-! ## Claim C7: video profile group round trip -/

/-- x is representable as int8_t. -/
def inInt8Range (x : Int) : Prop := -128 ≤ x ∧ x < 128

/-- x is representable as int16_t. -/
def inInt16Range (x : Int) : Prop := -32768 ≤ x ∧ x < 32768

theorem toInt8_eq_self (x : Int) (h : inInt8Range x) : toInt8 x = x := by
  obtain ⟨h1, h2⟩ := h
  unfold toInt8
  rw [Int.emod_eq_of_lt (by omega) (by omega)]
  omega

theorem toInt16_eq_self (x : Int) (h : inInt16Range x) : toInt16 x = x := by
  obtain ⟨h1, h2⟩ := h
  unfold toInt16
  rw [Int.emod_eq_of_lt (by omega) (by omega)]
  omega

theorem filterMap_video_all (ps : List RsProfile) (hv : ∀ p ∈ ps, p.isVideo = true) :
    ps.filterMap (fun sp => if sp.isVideo then some (videoProfileOf sp) else none)
    = ps.map videoProfileOf := by
  induction ps with
  | nil => rfl
  | cons p rest ih =>
    rw [List.filterMap_cons, List.map_cons]
    rw [hv p (List.mem_cons_self p rest)]
    simp only [if_true]
    rw [ih (fun q hq => hv q (List.mem_cons_of_mem p hq))]

/-- All message-entry fields fit their narrowed integer widths. -/
def profileFits (p : RsProfile) : Prop :=
  inInt8Range p.streamIndex ∧ inInt16Range p.uniqueId ∧ inInt16Range p.fps
  ∧ inInt16Range p.width ∧ inInt16Range p.height

instance (p : RsProfile) : Decidable (profileFits p) := by
  unfold profileFits inInt8Range inInt16Range
  infer_instance

/-- C7: a video profile group message built from N video-capable profiles
(whose fields fit the message field widths) holds exactly N entries,
field-wise equal to the inputs and in insertion order, and its
num_of_profiles equals N. -/
theorem C7_video_profile_group_roundtrip (name : String) (ps : List RsProfile)
    (hv : ∀ p ∈ ps, p.isVideo = true)
    (hr : ∀ p ∈ ps, profileFits p) :
    (prepare_video_profiles_messeges name ps).numOfProfiles = ps.length
    ∧ (prepare_video_profiles_messeges name ps).profiles
      = ps.map (fun p => { streamIndex := p.streamIndex, uniqueId := p.uniqueId,
                           fps := p.fps, format := p.format, streamType := p.streamType,
                           width := p.width, height := p.height,
                           isDefault := p.isDefault : VideoStreamProfile }) := by
  have hmap : (prepare_video_profiles_messeges name ps).profiles = ps.map videoProfileOf := by
    simp only [prepare_video_profiles_messeges]
    exact filterMap_video_all ps hv
  constructor
  · show (ps.filterMap _).length = ps.length
    rw [filterMap_video_all ps hv, List.length_map]
  · rw [hmap]
    apply List.map_congr_left
    intro p hp
    obtain ⟨h1, h2, h3, h4, h5⟩ := hr p hp
    unfold videoProfileOf
    rw [toInt8_eq_self _ h1, toInt16_eq_self _ h2, toInt16_eq_self _ h3,
        toInt16_eq_self _ h4, toInt16_eq_self _ h5]

/-- A concrete 1280x720 RGB8 color profile used as a witness input. -/
def sampleColorProfile : RsProfile :=
  { streamType := 2, fps := 30, format := 5, width := 1280, height := 720,
    streamIndex := 0, uniqueId := 7, isDefault := true,
    isVideo := true, isMotion := false, streamName := "Color" }

/-- Witness for C7 on a one-profile group. -/
theorem C7_video_profile_group_roundtrip_witness :
    (prepare_video_profiles_messeges "RGB Camera" [sampleColorProfile]).numOfProfiles
      = [sampleColorProfile].length
    ∧ (prepare_video_profiles_messeges "RGB Camera" [sampleColorProfile]).profiles
      = [sampleColorProfile].map
          (fun p => { streamIndex := p.streamIndex, uniqueId := p.uniqueId,
                      fps := p.fps, format := p.format, streamType := p.streamType,
                      width := p.width, height := p.height,
                      isDefault := p.isDefault : VideoStreamProfile }) :=
  C7_video_profile_group_roundtrip "RGB Camera" [sampleColorProfile]
    (by decide) (by decide)

/-! ## Initialization-message construction (lines 99-240) -/

/-- A raw notification message on the initialization queue, tagged with its
msg_type discriminant (DEVICE_HEADER / VIDEO_STREAM_PROFILES /
MOTION_STREAM_PROFILES). -/
inductive RawMsg where
  | deviceHeader (numOfStreams : Nat)
  | videoStreamProfiles (msg : VideoStreamProfilesMsg)
  | motionStreamProfiles (msg : MotionStreamProfilesMsg)
deriving DecidableEq

/-- Discriminant test for DEVICE_HEADER messages. -/
def RawMsg.isHeader : RawMsg → Bool
  | .deviceHeader _ => true
  | _ => false

/-- num_of_streams computed by add_init_device_header_msg (lines 102-108):
the sum over all sensors of the size of their stream-profile lists. -/
def num_streams (dev : RsDevice) : Nat :=
  (dev.sensors.map (fun s => s.profiles.length)).sum

/-- The init messages contributed by one sensor in add_init_profiles_msgs
(lines 187-229): color / depth sensors contribute their video profile group
when non-empty, motion sensors their motion profile group when non-empty,
and any other kind throws. -/
def sensor_init_msgs (s : RsSensor) : Except String (List RawMsg) :=
  match s.kind with
  | .color | .depth =>
    if (prepare_video_profiles_messeges s.name s.profiles).numOfProfiles > 0 then
      .ok [RawMsg.videoStreamProfiles (prepare_video_profiles_messeges s.name s.profiles)]
    else
      .ok []
  | .motion =>
    if (prepare_motion_profiles_messeges s.name s.profiles).numOfProfiles > 0 then
      .ok [RawMsg.motionStreamProfiles (prepare_motion_profiles_messeges s.name s.profiles)]
    else
      .ok []
  | .other =>
    .error "Sensor type is not supported (only video & motion sensors are supported)"

/-- add_init_profiles_msgs (lines 182-233): process sensors in order,
queueing each one's messages; a throw aborts the loop, keeping the messages
queued so far.  Returns the queued messages and the error, if any. -/
def add_init_profiles_msgs : List RsSensor → List RawMsg × Option String
  | [] => ([], none)
  | s :: rest =>
    match sensor_init_msgs s with
    | .error e => ([], some e)
    | .ok ms =>
      let r := add_init_profiles_msgs rest
      (ms ++ r.1, r.2)

/-- init_dds_device (lines 236-240): queue the DEVICE_HEADER message, then
the per-sensor profile messages; an exception from the profile pass leaves
the header and the messages queued before it. -/
def init_dds_device_msgs (dev : RsDevice) : List RawMsg × Option String :=
  let r := add_init_profiles_msgs dev.sensors
  (RawMsg.deviceHeader (num_streams dev) :: r.1, r.2)

/-! ## Device-server state and the streaming path (lines 70-97) -/

/-- realdds::image_header (lines 75-79). -/
structure ImageHeader where
  format : Nat
  width : Int
  height : Int
deriving DecidableEq

/-- The per-device server state the tool manipulates: the streams declared
at init, the initialization-message queue, the image header set per stream
name, and the streams on which hardware streaming was started through the
controller. -/
structure ServerState where
  supported : List String
  initMsgs : List RawMsg
  headers : List (String × ImageHeader)
  started : List String
deriving DecidableEq

/-- Observable side-effecting calls made by the tool, in program order. -/
inductive Action where
  | setImageHeader (stream : String) (h : ImageHeader)
  | startStream (stream : String)
  | stopAllStreams (dev : Nat)
  | eraseEntry (dev : Nat)
  | removeDevice (info : Option DeviceInfo)
deriving DecidableEq

/-- start_streaming (lines 70-97): build the image header from the chosen
profile (format, width, height), record it on the DDS device server under
the stream name, and only then start hardware streaming through the
controller. -/
def start_streaming (srv : ServerState) (p : RsProfile) : ServerState × List Action :=
  let header : ImageHeader := { format := p.format, width := p.width, height := p.height }
  let srv1 := { srv with headers := (p.streamName, header) :: srv.headers }
  let srv2 := { srv1 with started := p.streamName :: srv1.started }
  (srv2, [Action.setImageHeader p.streamName header, Action.startStream p.streamName])

/-- Every hardware-started stream has an image header recorded. -/
def headersSet (srv : ServerState) : Prop :=
  ∀ s ∈ srv.started, ((srv.headers.lookup s)).isSome = true

theorem lookup_cons_self (n : String) (h : ImageHeader) (l : List (String × ImageHeader)) :
    ((n, h) :: l).lookup n = some h := by
  simp [List.lookup]

theorem lookup_cons_isSome (n s : String) (h : ImageHeader)
    (l : List (String × ImageHeader)) (hl : (l.lookup s).isSome = true) :
    (((n, h) :: l).lookup s).isSome = true := by
  by_cases hs : s = n
  · subst hs; simp [List.lookup]
  · have hb : (s == n) = false := by simp [hs]
    simp only [List.lookup, hb]
    exact hl

/-- C5: start_streaming records the image header (format, width, height
taken from the profile) before the hardware start call, so a server on
which every started stream already had a header keeps that invariant: no
frame can be published on a stream before its header is set. -/
theorem C5_header_before_start (srv : ServerState) (p : RsProfile)
    (hinv : headersSet srv) :
    (start_streaming srv p).2
      = [Action.setImageHeader p.streamName
           { format := p.format, width := p.width, height := p.height },
         Action.startStream p.streamName]
    ∧ (start_streaming srv p).1.headers.lookup p.streamName
      = some { format := p.format, width := p.width, height := p.height }
    ∧ headersSet (start_streaming srv p).1 := by
  refine ⟨rfl, lookup_cons_self _ _ _, ?_⟩
  intro s hs
  simp only [start_streaming, List.mem_cons] at hs
  rcases hs with hs | hs
  · subst hs
    simp only [start_streaming]
    rw [lookup_cons_self]
    rfl
  · exact lookup_cons_isSome _ _ _ _ (hinv s hs)

/-- Witness for C5: starting the sample color stream on an idle server. -/
theorem C5_header_before_start_witness :
    (start_streaming ⟨["Color"], [], [], []⟩ sampleColorProfile).2
      = [Action.setImageHeader "Color" { format := 5, width := 1280, height := 720 },
         Action.startStream "Color"]
    ∧ (start_streaming ⟨["Color"], [], [], []⟩ sampleColorProfile).1.headers.lookup "Color"
      = some { format := 5, width := 1280, height := 720 }
    ∧ headersSet (start_streaming ⟨["Color"], [], [], []⟩ sampleColorProfile).1 :=
  C5_header_before_start ⟨["Color"], [], [], []⟩ sampleColorProfile
    (by intro s hs; simp at hs)

/-! ## Claim C6: frame delivery and publish failure -/

/-- Modelled from the spec: dds_device_server::publish_image (declared in
realdds, body not under src/) fails when the stream is not Started, and may
fail in the transport when pushing the payload; a failure surfaces as a
thrown exception at the call.  The transport outcome is an explicit input. -/
def publish_image (srv : ServerState) (stream : String) (transportOk : Bool) :
    Except String Unit :=
  if (srv.started.contains stream) = false then
    .error "stream not started"
  else if transportOk = false then
    .error "transport failure"
  else
    .ok ()

/-- The outcome of one frame delivery. -/
structure FrameOutcome where
  state : ServerState
  logs : List String
  publishAttempts : Nat
deriving DecidableEq

/-- The frame callback installed by start_streaming (lines 83-96): call
publish_image once inside a try block; on exception, log and drop the
frame.  The server streaming state is not touched in either case. -/
def frame_callback (srv : ServerState) (stream : String) (transportOk : Bool) :
    FrameOutcome :=
  match publish_image srv stream transportOk with
  | .ok _ => { state := srv, logs := [], publishAttempts := 1 }
  | .error e =>
    { state := srv
      logs := ["Exception raised during DDS publish " ++ stream ++ " frame: " ++ e]
      publishAttempts := 1 }

/-- C6: when publish fails on a started stream, the failure is logged, the
frame is dropped with no retry (exactly one publish attempt), and the
server state is unchanged, so the stream remains started for subsequent
frames. -/
theorem C6_publish_failure_drop (srv : ServerState) (stream : String)
    (hstarted : srv.started.contains stream = true) :
    (frame_callback srv stream false).state = srv
    ∧ (frame_callback srv stream false).state.started.contains stream = true
    ∧ (frame_callback srv stream false).logs ≠ []
    ∧ (frame_callback srv stream false).publishAttempts = 1 := by
  simp only [frame_callback, publish_image, hstarted]
  refine ⟨rfl, hstarted, ?_, rfl⟩
  intro hc
  exact List.cons_ne_nil _ _ hc

/-- Witness for C6: transport failure on a started Color stream. -/
theorem C6_publish_failure_drop_witness :
    (frame_callback ⟨["Color"], [], [], ["Color"]⟩ "Color" false).state
      = ⟨["Color"], [], [], ["Color"]⟩
    ∧ (frame_callback ⟨["Color"], [], [], ["Color"]⟩ "Color" false).state.started.contains "Color"
      = true
    ∧ (frame_callback ⟨["Color"], [], [], ["Color"]⟩ "Color" false).logs ≠ []
    ∧ (frame_callback ⟨["Color"], [], [], ["Color"]⟩ "Color" false).publishAttempts = 1 :=
  C6_publish_failure_drop ⟨["Color"], [], [], ["Color"]⟩ "Color" (by decide)

/-! ## The attach handler (main, lines 370-405) -/

/-- device_handler (lines 351-356): the registry value for one device.
The controller stream state is folded into ServerState.started. -/
structure DeviceHandler where
  info : DeviceInfo
  server : ServerState
deriving DecidableEq

/-- The shared bridge state: device_handlers_list (a std::map modelled as
an association list keyed by the device handle) and the set of infos
currently announced by the broadcaster. -/
structure GlobalState where
  registry : List (Nat × DeviceHandler)
  broadcast : List DeviceInfo
deriving DecidableEq

/-- rs2_stream enumerator RS2_STREAM_COLOR. -/
def RS2_STREAM_COLOR : Nat := 2

/-- rs2_format enumerator RS2_FORMAT_RGB8. -/
def RS2_FORMAT_RGB8 : Nat := 5

/-- get_required_profile (lines 46-68): find_if over the sensor profiles
on (stream type, fps, format, width, height); the throw on not-found is
modelled by the none result. -/
def get_required_profile (sensor : RsSensor) (stream : Nat) (fps : Int)
    (format : Nat) (width height : Int) : Option RsProfile :=
  sensor.profiles.find? (fun sp =>
    sp.streamType == stream && sp.fps == fps && sp.format == format
      && sp.width == width && sp.height == height)

/-- get_supported_streams (lines 28-43): the set of stream names over all
profiles of all sensors (an unordered_set, modelled as a deduplicated
list). -/
def get_supported_streams (dev : RsDevice) : List String :=
  (((dev.sensors.map RsSensor.profiles).flatten).map RsProfile.streamName).dedup

/-- dev.first< rs2::color_sensor >() (line 396): the first color sensor,
none when the device has no color sensor (rs2 throws there). -/
def firstColorSensor (dev : RsDevice) : Option RsSensor :=
  dev.sensors.find? (fun s => decide (s.kind = SensorKind.color))

/-- The per-device server built by the attach handler (lines 370-404).
In the source the dds_device_server is a shared_ptr, emplaced into the
registry and then mutated through the same pointer by init_dds_device and
start_streaming; the model computes the final server value and stores it
at emplace.  The returned option is the exception (if any) thrown by
init_dds_device, first< color_sensor >, or get_required_profile. -/
def attach_server (dev : RsDevice) : ServerState × Option String :=
  let server1 : ServerState :=
    { supported := get_supported_streams dev
      initMsgs := (init_dds_device_msgs dev).1
      headers := []
      started := [] }
  match (init_dds_device_msgs dev).2 with
  | some e => (server1, some e)
  | none =>
    match firstColorSensor dev with
    | none => (server1, some "rs2 first(): no color sensor found")
    | some color =>
      match get_required_profile color RS2_STREAM_COLOR 30 RS2_FORMAT_RGB8 1280 720 with
      | none => (server1, some "Could not find required profile")
      | some profile => ((start_streaming server1 profile).1, none)

/-- std::map::emplace: inserts only when the key is absent. -/
def emplace (l : List (Nat × DeviceHandler)) (k : Nat) (v : DeviceHandler) :
    List (Nat × DeviceHandler) :=
  if (l.lookup k).isSome then l else (k, v) :: l

/-- The attach handler (lines 370-405): build DeviceInfo, announce it on
the broadcaster, build and register the device server, queue init
messages, pick the default 1280x720 RGB8 color profile at 30 fps and start
streaming it; any throw past a step keeps the effects of the completed
steps. -/
def attach_handler (st : GlobalState) (id : Nat) (dev : RsDevice) :
    GlobalState × Option String :=
  let dev_info := rs2_device_to_info dev
  let sr := attach_server dev
  ({ registry := emplace st.registry id { info := dev_info, server := sr.1 }
     broadcast := dev_info :: st.broadcast },
   sr.2)

/-- Outcome of one attach event as seen at process level. -/
structure AttachOutcome where
  state : GlobalState
  logs : List String
  alive : Bool
deriving DecidableEq

/-- Modelled from the spec: the device watcher (lrs-device-watcher, not
under src/) invokes the attach callback; per the error-handling design, a
per-device failure during bridging is logged and never unwinds past the
device-handler boundary into the control loop, so the process stays
alive. -/
def watcher_on_attach (st : GlobalState) (id : Nat) (dev : RsDevice) :
    AttachOutcome :=
  match (attach_handler st id dev).2 with
  | some e => { state := (attach_handler st id dev).1, logs := [e], alive := true }
  | none => { state := (attach_handler st id dev).1, logs := [], alive := true }

/-! ### Lemmas on the init-message queue and attach errors -/

theorem sensor_init_msgs_no_header (s : RsSensor) (ms : List RawMsg)
    (h : sensor_init_msgs s = .ok ms) :
    ∀ m ∈ ms, m.isHeader = false := by
  intro m hm
  unfold sensor_init_msgs at h
  split at h
  case h_4 => exact Except.noConfusion h
  all_goals
    split at h <;> injection h with h <;> subst h
    · rcases List.mem_singleton.mp hm with rfl
      rfl
    · cases hm

theorem add_init_profiles_msgs_no_header (l : List RsSensor) :
    ∀ m ∈ (add_init_profiles_msgs l).1, m.isHeader = false := by
  induction l with
  | nil => intro m hm; cases hm
  | cons s rest ih =>
    intro m hm
    simp only [add_init_profiles_msgs] at hm
    split at hm
    · simp at hm
    · rename_i ms hs
      simp only [List.mem_append] at hm
      rcases hm with hm | hm
      · exact sensor_init_msgs_no_header s ms hs m hm
      · exact ih m hm

theorem unsupported_sensor_errors (l : List RsSensor)
    (h : ∃ s ∈ l, s.kind = SensorKind.other) :
    (add_init_profiles_msgs l).2.isSome = true := by
  induction l with
  | nil => obtain ⟨s, hs, _⟩ := h; cases hs
  | cons s rest ih =>
    obtain ⟨t, ht, hk⟩ := h
    simp only [List.mem_cons] at ht
    rcases ht with ht | ht
    · subst ht
      simp only [add_init_profiles_msgs, sensor_init_msgs, hk]
      rfl
    · simp only [add_init_profiles_msgs]
      split
      · rfl
      · exact ih ⟨t, ht, hk⟩

/-- The device has a sensor that is neither video- nor motion-capable
(throws in add_init_profiles_msgs). -/
def hasUnsupportedSensor (dev : RsDevice) : Prop :=
  ∃ s ∈ dev.sensors, s.kind = SensorKind.other

/-- The requested default profile cannot be obtained: whenever a first
color sensor exists, it has no 1280x720 RGB8 profile at 30 fps (and when
none exists, first< color_sensor > itself throws). -/
def requiredProfileMissing (dev : RsDevice) : Prop :=
  ∀ c, firstColorSensor dev = some c →
    get_required_profile c RS2_STREAM_COLOR 30 RS2_FORMAT_RGB8 1280 720 = none

/-- The server value before any streaming-start effect. -/
def attach_server_base (dev : RsDevice) : ServerState :=
  { supported := get_supported_streams dev
    initMsgs := (init_dds_device_msgs dev).1
    headers := []
    started := [] }

theorem init_dds_device_msgs_snd (dev : RsDevice) :
    (init_dds_device_msgs dev).2 = (add_init_profiles_msgs dev.sensors).2 := rfl

theorem start_streaming_initMsgs (srv : ServerState) (p : RsProfile) :
    (start_streaming srv p).1.initMsgs = srv.initMsgs := rfl

/-- attach_server either succeeds — no init error, a first color sensor
with the requested profile, and a server that is the base server with that
stream started — or fails with the base server unchanged. -/
theorem attach_server_shape (dev : RsDevice) :
    ((attach_server dev).2 = none ∧ (init_dds_device_msgs dev).2 = none
      ∧ ∃ c p, firstColorSensor dev = some c
          ∧ get_required_profile c RS2_STREAM_COLOR 30 RS2_FORMAT_RGB8 1280 720 = some p
          ∧ (attach_server dev).1 = (start_streaming (attach_server_base dev) p).1)
    ∨ ((attach_server dev).2.isSome = true
        ∧ (attach_server dev).1 = attach_server_base dev) := by
  unfold attach_server attach_server_base
  split
  · right; exact ⟨rfl, rfl⟩
  · rename_i hinit
    split
    · right; exact ⟨rfl, rfl⟩
    · rename_i c hc
      split
      · right; exact ⟨rfl, rfl⟩
      · rename_i p hp
        left
        exact ⟨rfl, hinit, c, p, hc, hp, rfl⟩

theorem attach_server_initMsgs (dev : RsDevice) :
    (attach_server dev).1.initMsgs = (init_dds_device_msgs dev).1 := by
  rcases attach_server_shape dev with ⟨_, _, c, p, _, _, heq⟩ | ⟨_, heq⟩
  · rw [heq, start_streaming_initMsgs]
    rfl
  · rw [heq]
    rfl

theorem attach_server_error_state (dev : RsDevice)
    (herr : hasUnsupportedSensor dev ∨ requiredProfileMissing dev) :
    (attach_server dev).2.isSome = true ∧ (attach_server dev).1.started = [] := by
  rcases attach_server_shape dev with ⟨_, hinit, c, p, hc, hp, _⟩ | ⟨hsome, heq⟩
  · exfalso
    rcases herr with hu | hm
    · have hs := unsupported_sensor_errors dev.sensors hu
      rw [init_dds_device_msgs_snd] at hinit
      rw [hinit] at hs
      cases hs
    · rw [hm c hc] at hp
      cases hp
  · rw [heq]
    exact ⟨hsome, rfl⟩

theorem lookup_emplace_self (l : List (Nat × DeviceHandler)) (k : Nat)
    (v : DeviceHandler) (hfresh : l.lookup k = none) :
    (emplace l k v).lookup k = some v := by
  unfold emplace
  rw [hfresh]
  simp [List.lookup]

theorem lookup_emplace_ne (l : List (Nat × DeviceHandler)) (k d : Nat)
    (v : DeviceHandler) (hne : d ≠ k) :
    (emplace l k v).lookup d = l.lookup d := by
  unfold emplace
  split
  · rfl
  · have hb : (d == k) = false := by simp [hne]
    simp [List.lookup, hb]

/-! ## Claim C1: the DEVICE_HEADER message leads the init queue -/

/-- C1: after an attach event, the initialization queue of the resulting
device server begins with exactly one DEVICE_HEADER message — the head of
the queue, with no further header in the tail, so it precedes every
profile message — and its num_of_streams is the sum of the stream-profile
counts over all sensors of the device. -/
theorem C1_device_header_first (st : GlobalState) (id : Nat) (dev : RsDevice)
    (hfresh : st.registry.lookup id = none) :
    ∃ h : DeviceHandler,
      (attach_handler st id dev).1.registry.lookup id = some h
      ∧ h.server.initMsgs.head? = some (RawMsg.deviceHeader (num_streams dev))
      ∧ ∀ m ∈ h.server.initMsgs.tail, m.isHeader = false := by
  refine ⟨{ info := rs2_device_to_info dev, server := (attach_server dev).1 }, ?_, ?_, ?_⟩
  · exact lookup_emplace_self st.registry id _ hfresh
  · rw [attach_server_initMsgs]
    rfl
  · rw [attach_server_initMsgs]
    intro m hm
    have ht : (init_dds_device_msgs dev).1.tail = (add_init_profiles_msgs dev.sensors).1 := rfl
    rw [ht] at hm
    exact add_init_profiles_msgs_no_header dev.sensors m hm

/-- A concrete device with one color sensor exposing the sample profile. -/
def sampleDevice : RsDevice :=
  { name := "Intel RealSense D435", serial := "11223344", productLine := "D400",
    lockedStr := "NO",
    sensors := [{ name := "RGB Camera", kind := SensorKind.color,
                  profiles := [sampleColorProfile] }] }

/-- Witness for C1: attaching the sample device to an empty bridge. -/
theorem C1_device_header_first_witness :
    ∃ h : DeviceHandler,
      (attach_handler ⟨[], []⟩ 0 sampleDevice).1.registry.lookup 0 = some h
      ∧ h.server.initMsgs.head? = some (RawMsg.deviceHeader (num_streams sampleDevice))
      ∧ ∀ m ∈ h.server.initMsgs.tail, m.isHeader = false :=
  C1_device_header_first ⟨[], []⟩ 0 sampleDevice rfl

/-! ## Claim C4: per-device errors abort only that device -/

/-- C4: when bridging a freshly attached device fails — an unsupported
sensor kind while building profile messages, or failure to find the
requested default stream profile — the error is logged, the process stays
alive, every other registered device is untouched (registry entries and
broadcast announcements preserved), and the failed device never reaches a
started stream. -/
theorem C4_per_device_error_isolated (st : GlobalState) (id : Nat) (dev : RsDevice)
    (hfresh : st.registry.lookup id = none)
    (herr : hasUnsupportedSensor dev ∨ requiredProfileMissing dev) :
    (watcher_on_attach st id dev).alive = true
    ∧ (watcher_on_attach st id dev).logs ≠ []
    ∧ (∀ d, d ≠ id →
        (watcher_on_attach st id dev).state.registry.lookup d = st.registry.lookup d)
    ∧ (∀ i ∈ st.broadcast, i ∈ (watcher_on_attach st id dev).state.broadcast)
    ∧ (∃ h, (watcher_on_attach st id dev).state.registry.lookup id = some h
        ∧ h.server.started = []) := by
  obtain ⟨hsome, hstart⟩ := attach_server_error_state dev herr
  cases he : (attach_server dev).2 with
  | none =>
    rw [he] at hsome
    cases hsome
  | some e =>
    have hw : watcher_on_attach st id dev
        = { state := (attach_handler st id dev).1, logs := [e], alive := true } := by
      unfold watcher_on_attach
      have h2 : (attach_handler st id dev).2 = some e := he
      rw [h2]
    rw [hw]
    refine ⟨rfl, List.cons_ne_nil e [], ?_, ?_, ?_⟩
    · intro d hd
      exact lookup_emplace_ne st.registry id d _ hd
    · intro i hi
      exact List.mem_cons_of_mem _ hi
    · refine ⟨{ info := rs2_device_to_info dev, server := (attach_server dev).1 }, ?_, hstart⟩
      exact lookup_emplace_self st.registry id _ hfresh

/-- A device whose only sensor kind is neither video- nor motion-capable. -/
def sampleBadDevice : RsDevice :=
  { name := "Intel RealSense D435", serial := "123", productLine := "D400",
    lockedStr := "NO",
    sensors := [{ name := "Odd Sensor", kind := SensorKind.other, profiles := [] }] }

/-- Witness for C4: attaching a device with an unsupported sensor kind. -/
theorem C4_per_device_error_isolated_witness :
    (watcher_on_attach ⟨[], []⟩ 0 sampleBadDevice).alive = true
    ∧ (watcher_on_attach ⟨[], []⟩ 0 sampleBadDevice).logs ≠ []
    ∧ (∀ d, d ≠ 0 →
        (watcher_on_attach ⟨[], []⟩ 0 sampleBadDevice).state.registry.lookup d
          = (⟨[], []⟩ : GlobalState).registry.lookup d)
    ∧ (∀ i ∈ (⟨[], []⟩ : GlobalState).broadcast,
        i ∈ (watcher_on_attach ⟨[], []⟩ 0 sampleBadDevice).state.broadcast)
    ∧ (∃ h, (watcher_on_attach ⟨[], []⟩ 0 sampleBadDevice).state.registry.lookup 0 = some h
        ∧ h.server.started = []) :=
  C4_per_device_error_isolated ⟨[], []⟩ 0 sampleBadDevice rfl
    (Or.inl ⟨{ name := "Odd Sensor", kind := SensorKind.other, profiles := [] },
             List.mem_singleton.mpr rfl, rfl⟩)

/-! ## The detach handler (main, lines 407-416) -/

/-- std::map::erase by key. -/
def eraseKey (l : List (Nat × DeviceHandler)) (k : Nat) : List (Nat × DeviceHandler) :=
  l.filter (fun e => e.1 != k)

/-- handler.controller->stop_all_streams(): all active streams of the
device are stopped. -/
def stop_all_streams (st : GlobalState) (id : Nat) : GlobalState :=
  { st with registry := st.registry.map (fun e =>
      if e.1 == id then (e.1, { e.2 with server := { e.2.server with started := [] } })
      else e) }

/-- Outcome of one detach event: the final state, the calls in program
order, and the value readable through the handler reference at the
remove_device call. -/
structure DetachResult where
  state : GlobalState
  trace : List Action
  infoPassedToRemove : Option DeviceInfo
deriving DecidableEq

/-- The detach handler (lines 407-416): look the handler up
(map::at, throws when absent — modelled by none), stop all the device
streams through its controller, erase the registry entry, then call
broadcaster.remove_device( handler.info ).  In the source, handler is a
const reference into the map node that the erase has just destroyed, so
the value readable through it at the remove_device call is modelled as a
fresh lookup at that point.  remove_device itself (realdds broadcaster,
not under src/) is modelled from the spec: it retracts the announcement
keyed by topic_root. -/
def detach_handler (st : GlobalState) (id : Nat) : Option DetachResult :=
  match st.registry.lookup id with
  | none => none
  | some _handler =>
    let st1 := stop_all_streams st id
    let st2 : GlobalState := { st1 with registry := eraseKey st1.registry id }
    let infoAtCall := (st2.registry.lookup id).map DeviceHandler.info
    let st3 : GlobalState := { st2 with broadcast :=
      match infoAtCall with
      | some i => st2.broadcast.filter (fun j => j.topicRoot != i.topicRoot)
      | none => st2.broadcast }
    some { state := st3
           trace := [Action.stopAllStreams id, Action.eraseEntry id,
                     Action.removeDevice infoAtCall]
           infoPassedToRemove := infoAtCall }

theorem lookup_eraseKey_self (l : List (Nat × DeviceHandler)) (k : Nat) :
    (eraseKey l k).lookup k = none := by
  induction l with
  | nil => rfl
  | cons e rest ih =>
    rw [eraseKey, List.filter_cons]
    by_cases hk : e.1 = k
    · rw [if_neg (by simp [hk])]
      exact ih
    · rw [if_pos (by simp [hk])]
      cases e with
      | mk e1 e2 =>
        have hb : (k == e1) = false := by
          simp only [Prod.fst] at hk
          simp [Ne.symm hk]
        simp only [List.lookup, hb]
        exact ih

/-! ## Claim C3: detach teardown order -/

/-- C3: detaching a registered device performs, in this order: stop all
the device streams via its controller, erase the registry entry, and only
then the broadcaster retraction call; afterwards the registry no longer
holds the device. -/
theorem C3_detach_order (st : GlobalState) (id : Nat) (h : DeviceHandler)
    (hreg : st.registry.lookup id = some h) :
    ∃ r : DetachResult, detach_handler st id = some r
      ∧ r.trace = [Action.stopAllStreams id, Action.eraseEntry id,
                   Action.removeDevice r.infoPassedToRemove]
      ∧ r.state.registry.lookup id = none := by
  unfold detach_handler
  rw [hreg]
  exact ⟨_, rfl, rfl, lookup_eraseKey_self _ id⟩

/-- A registered handler for the sample device, with its Color stream
started. -/
def sampleHandler : DeviceHandler :=
  { info := rs2_device_to_info sampleDevice
    server := ⟨["Color"], [], [], ["Color"]⟩ }

/-- A bridge state with the sample device registered and announced. -/
def sampleRegistryState : GlobalState :=
  { registry := [(0, sampleHandler)]
    broadcast := [rs2_device_to_info sampleDevice] }

/-- Witness for C3: detaching the one registered device. -/
theorem C3_detach_order_witness :
    ∃ r : DetachResult, detach_handler sampleRegistryState 0 = some r
      ∧ r.trace = [Action.stopAllStreams 0, Action.eraseEntry 0,
                   Action.removeDevice r.infoPassedToRemove]
      ∧ r.state.registry.lookup 0 = none :=
  C3_detach_order sampleRegistryState 0 sampleHandler rfl

/-! ## Claim C9: the DeviceInfo read at the remove_device call -/

/-- C9: the registry holds the registered info before the detach, but at
the remove_device call the entry is already erased, so the value readable
through the map for the detached device is none — not the registered
DeviceInfo.  The source reads handler.info through a reference into the
erased map node. -/
theorem C9_info_dangling_at_remove :
    (sampleRegistryState.registry.lookup 0).map DeviceHandler.info
      = some (rs2_device_to_info sampleDevice)
    ∧ (detach_handler sampleRegistryState 0).map DetachResult.infoPassedToRemove
      = some none
    ∧ (detach_handler sampleRegistryState 0).map DetachResult.infoPassedToRemove
      ≠ some (some (rs2_device_to_info sampleDevice)) := by
  refine ⟨rfl, rfl, ?_⟩
  intro hc
  have : (none : Option DeviceInfo) = some (rs2_device_to_info sampleDevice) := by
    have h1 : (detach_handler sampleRegistryState 0).map DetachResult.infoPassedToRemove
        = some none := rfl
    rw [h1] at hc
    exact Option.some.inj hc
  exact Option.noConfusion this

/-! ## Claim C8: fatal-at-startup conditions -/

/-- Process outcome of startup: exit before the run loop with a code, or
reach the device-watcher run loop. -/
inductive MainOutcome where
  | earlyExit (code : Nat)
  | runLoop
deriving DecidableEq

/-- EXIT_FAILURE. -/
def EXIT_FAILURE : Nat := 1

/-- main startup (lines 296-349): when a domain id is given on the
command line, values above 232 exit with EXIT_FAILURE (dds_domain_id is
unsigned, so 0-232 is exactly the accepted range); then the broadcaster
is run and a run() failure exits with EXIT_FAILURE; otherwise the process
reaches the device-watcher run loop. -/
def main_startup (domainArg : Option Nat) (broadcasterRunOk : Bool) : MainOutcome :=
  match domainArg with
  | some d =>
    if d > 232 then MainOutcome.earlyExit EXIT_FAILURE
    else if broadcasterRunOk then MainOutcome.runLoop
    else MainOutcome.earlyExit EXIT_FAILURE
  | none =>
    if broadcasterRunOk then MainOutcome.runLoop
    else MainOutcome.earlyExit EXIT_FAILURE

/-- C8: an out-of-range command-line domain id (above 232) and a
broadcaster run() failure each exit the process with the non-zero code
EXIT_FAILURE before the run loop is reached. -/
theorem C8_fatal_startup :
    (∀ d b, 232 < d → main_startup (some d) b = MainOutcome.earlyExit EXIT_FAILURE)
    ∧ (∀ dArg, main_startup dArg false = MainOutcome.earlyExit EXIT_FAILURE)
    ∧ EXIT_FAILURE ≠ 0 := by
  refine ⟨?_, ?_, by decide⟩
  · intro d b hd
    simp [main_startup, hd]
  · intro dArg
    cases dArg with
    | none => rfl
    | some d =>
      by_cases hd : d > 232
      · simp [main_startup, hd]
      · simp [main_startup, hd]

/-- Witness for C8: domain id 233 is rejected even when the broadcaster
would run. -/
theorem C8_fatal_startup_witness :
    main_startup (some 233) true = MainOutcome.earlyExit EXIT_FAILURE :=
  C8_fatal_startup.1 233 true (by decide)

end RsDdsServer
